import Mathlib

/-!
# gmcert.c : certificate issuance facade over the GmSSL / OpenSSL library

Shallow embedding of `src/huaweichain/gmssl/gmcert.c`.

The wrapper owns only control flow: which library routine is called, with which
arguments, in which order, and which return values are inspected.  The library
itself is an external collaborator, so every library routine is represented by

* the *outcome* it reports during one call of a wrapper function (a field of
  `Lib`, `CodecLib` or `VerifyLib`), and
* its documented effect on the certificate object when it succeeds.

Every wrapper function returns the sequence of library operations it performed
(`Run.trace`) together with its C return value.
-/

namespace GmCert

/-! ## Data model -/

/-- Key handle (`EVP_PKEY *`); keys are owned by the caller and only referenced. -/
structure EVP_PKEY where
  id : Nat
  deriving DecidableEq, Repr

/-- Digest algorithms named in the source (`EVP_sm3()`, `"sha256"`). -/
inductive EVP_MD where
  | sm3
  | sha256
  deriving DecidableEq, Repr

/-- Extension identifiers used by the source (`NID_*`). -/
inductive Nid where
  | ext_key_usage
  | subject_key_identifier
  | authority_key_identifier
  | key_usage
  | basic_constraints
  deriving DecidableEq, Repr

/-- Extension object as built by `X509V3_EXT_conf_nid` from an identifier and a
configuration value. -/
structure X509_EXTENSION where
  nid : Nid
  value : String
  deriving DecidableEq, Repr

/-- Certificate object (`X509`).  A distinguished name is the list of its
`(field, value)` entries in insertion order. -/
structure X509 where
  version : Nat
  serialNumber : Option Nat
  notBefore : Option Int
  notAfter : Option Int
  pubkey : Option EVP_PKEY
  subject : List (String × String)
  issuer : List (String × String)
  extensions : List X509_EXTENSION
  signature : Option (EVP_PKEY × EVP_MD)
  deriving DecidableEq, Repr

/-- The object returned by a successful `X509_new()`. -/
def X509_new : X509 :=
  { version := 0, serialNumber := none, notBefore := none, notAfter := none,
    pubkey := none, subject := [], issuer := [], extensions := [], signature := none }

/-- Which certificate object an operation addresses: the certificate under
construction (`x509`) or the caller's `caCert`. -/
inductive CertRef where
  | x509
  | caCert
  deriving DecidableEq, Repr

/-- Validity field addressed by `X509_gmtime_adj`. -/
inductive TimeField where
  | notBefore
  | notAfter
  deriving DecidableEq, Repr

/-- Library operations performed by the wrapper, with the arguments chosen by the
wrapper. -/
inductive Op where
  | X509_new
  | X509_set_version (v : Nat)
  | ASN1_INTEGER_new
  | BN_new
  | BN_rand (bits : Nat) (top : Int) (bottom : Int)
  | BN_to_ASN1_INTEGER
  | X509_set_serialNumber
  | X509_gmtime_adj (field : TimeField) (adj : Int)
  | X509_set_pubkey (key : EVP_PKEY)
  | X509_get_subject_name (cert : CertRef)
  | X509_NAME_add_entry_by_txt (field : String) (value : String)
  | X509_set_issuer_name (nameOf : CertRef)
  | X509V3_set_ctx (issuer : CertRef)
  | X509V3_EXT_conf_nid (nid : Nid) (value : String)
  | X509_add_ext (nid : Nid)
  | X509_EXTENSION_free
  | X509_sign (key : EVP_PKEY) (md : EVP_MD)
  | ERR_get_error
  | printf
  | ASN1_INTEGER_free
  | BN_free
  | X509_free
  deriving DecidableEq, Repr

/-- Outcomes reported by the library during one call of a certificate builder,
and the platform width of C `long`.  Calls that occur several times in one run
are indexed by their position (0-based) among the calls of that routine. -/
structure Lib where
  long_bits : Nat
  X509_new_ok : Bool
  X509_set_version_ret : Int
  ASN1_INTEGER_new_ok : Bool
  BN_new_ok : Bool
  BN_rand_ret : Int
  BN_rand_value : Nat
  BN_to_ASN1_INTEGER_ok : Bool
  X509_set_serialNumber_ret : Int
  time : Nat → Int
  X509_gmtime_adj_ok : Nat → Bool
  X509_set_pubkey_ret : Int
  X509_NAME_add_entry_by_txt_ret : Nat → Int
  X509_set_issuer_name_ret : Int
  X509V3_EXT_conf_nid_ok : Nat → Bool
  X509_add_ext_ret : Nat → Int
  X509_sign_ret : Int
  sno_indeterminate_nonnull : Bool

/-- The six subject attributes passed to every builder. -/
structure Subject where
  country : String
  province : String
  locality : String
  org : String
  ou : String
  commonName : String
  deriving DecidableEq, Repr

/-- Result of one builder call: the library operations performed, in order, and
the returned pointer (`none` is `NULL`). -/
structure Run where
  trace : List Op
  ret : Option X509

/-! ## Machine arithmetic -/

/-- Number of values of C `unsigned int` (`uint`). -/
def UINT_RANGE : Nat := 2 ^ 32

/-- Conversion of an unsigned value to a signed integer type of `bits` bits
(two's complement). -/
def toSigned (bits : Nat) (u : Nat) : Int :=
  if u % 2 ^ bits < 2 ^ (bits - 1) then ((u % 2 ^ bits : Nat) : Int)
  else ((u % 2 ^ bits : Nat) : Int) - ((2 ^ bits : Nat) : Int)

/-- The expression `31536000*years` of line 147: `int * unsigned int` is computed
in `unsigned int`, then converted to the `long` parameter of `X509_gmtime_adj`. -/
def notAfterAdj (long_bits : Nat) (years : Nat) : Int :=
  toSigned long_bits ((31536000 * (years % UINT_RANGE)) % UINT_RANGE)

/-! ## Library effects on success -/

/-- `X509_gmtime_adj(field, adj)`: the field becomes current time plus `adj`. -/
def X509_gmtime_adj (lib : Lib) (k : Nat) (f : TimeField) (adj : Int) (x : X509) : X509 :=
  if lib.X509_gmtime_adj_ok k then
    match f with
    | TimeField.notBefore => { x with notBefore := some (lib.time k + adj) }
    | TimeField.notAfter => { x with notAfter := some (lib.time k + adj) }
  else x

/-- `X509_NAME_add_entry_by_txt(name, field, MBSTRING_ASC, value, -1, -1, 0)` on the
subject name of `x`: appends the entry when the library accepts it. -/
def X509_NAME_add_entry_by_txt (lib : Lib) (k : Nat) (field value : String) (x : X509) : X509 :=
  if lib.X509_NAME_add_entry_by_txt_ret k ≠ 0 then
    { x with subject := x.subject ++ [(field, value)] }
  else x

/-! ## The wrapper functions -/

/-- Result of `set_extension`. -/
structure ExtResult where
  trace : List Op
  cert : X509
  ret : Int

/-- `set_extension` (lines 81-98); `k` is the position of this call among the
calls of the current builder. -/
def set_extension (lib : Lib) (k : Nat) (issuer : CertRef) (cert : X509) (nid : Nid)
    (value : String) : ExtResult :=
  if lib.X509V3_EXT_conf_nid_ok k then
    { trace := [Op.X509V3_set_ctx issuer, Op.X509V3_EXT_conf_nid nid value,
                Op.X509_add_ext nid, Op.X509_EXTENSION_free],
      cert := if lib.X509_add_ext_ret k ≠ 0 then
                { cert with extensions := cert.extensions ++ [{ nid := nid, value := value }] }
              else cert,
      ret := 0 }
  else
    { trace := [Op.X509V3_set_ctx issuer, Op.X509V3_EXT_conf_nid nid value,
                Op.ERR_get_error, Op.printf],
      cert := cert,
      ret := -1 }

/-- The `END:` block of `GenerateCertBasic` (lines 167-180). -/
def GenerateCertBasic_END (trace : List Op) (x509 : X509) (sno btmp : Bool) (ret : Int) : Run :=
  let t1 := if sno then trace ++ [Op.ASN1_INTEGER_free] else trace
  let t2 := if btmp then t1 ++ [Op.BN_free] else t1
  if ret ≠ 0 then { trace := t2 ++ [Op.X509_free], ret := none }
  else { trace := t2, ret := some x509 }

/-- The straight-line part of `GenerateCertBasic` after the serial number is set
(lines 146-165): validity window, public key and the six subject entries.  None
of these return values is inspected by the source. -/
def GenerateCertBasic_fields (lib : Lib) (s : Subject) (years : Nat) (pubKey : EVP_PKEY)
    (x2 : X509) : X509 :=
  let x3 := X509_gmtime_adj lib 0 TimeField.notBefore 0 x2
  let x4 := X509_gmtime_adj lib 1 TimeField.notAfter (notAfterAdj lib.long_bits years) x3
  let x5 := if lib.X509_set_pubkey_ret ≠ 0 then { x4 with pubkey := some pubKey } else x4
  let x6 := X509_NAME_add_entry_by_txt lib 0 "C" s.country x5
  let x7 := X509_NAME_add_entry_by_txt lib 1 "ST" s.province x6
  let x8 := X509_NAME_add_entry_by_txt lib 2 "L" s.locality x7
  let x9 := X509_NAME_add_entry_by_txt lib 3 "O" s.org x8
  let x10 := X509_NAME_add_entry_by_txt lib 4 "OU" s.ou x9
  X509_NAME_add_entry_by_txt lib 5 "CN" s.commonName x10

/-- `GenerateCertBasic` (lines 101-181).  Each branch lists the library operations
performed up to the `goto END` it models. -/
def GenerateCertBasic (lib : Lib) (s : Subject) (years : Nat) (pubKey : EVP_PKEY) : Run :=
  if lib.X509_new_ok = false then
    { trace := [Op.X509_new, Op.ERR_get_error, Op.printf], ret := none }
  else if lib.X509_set_version_ret ≠ 1 then
    GenerateCertBasic_END
      [Op.X509_new, Op.X509_set_version 2, Op.ERR_get_error, Op.printf]
      X509_new lib.sno_indeterminate_nonnull false (-1)
  else if lib.ASN1_INTEGER_new_ok = false then
    GenerateCertBasic_END
      [Op.X509_new, Op.X509_set_version 2, Op.ASN1_INTEGER_new]
      { X509_new with version := 2 } false false (-1)
  else if lib.BN_new_ok = false then
    GenerateCertBasic_END
      [Op.X509_new, Op.X509_set_version 2, Op.ASN1_INTEGER_new, Op.BN_new]
      { X509_new with version := 2 } true false (-1)
  else if lib.BN_rand_ret = 0 then
    GenerateCertBasic_END
      [Op.X509_new, Op.X509_set_version 2, Op.ASN1_INTEGER_new, Op.BN_new, Op.BN_rand 128 0 0]
      { X509_new with version := 2 } true true (-1)
  else if lib.BN_to_ASN1_INTEGER_ok = false then
    GenerateCertBasic_END
      [Op.X509_new, Op.X509_set_version 2, Op.ASN1_INTEGER_new, Op.BN_new, Op.BN_rand 128 0 0,
       Op.BN_to_ASN1_INTEGER]
      { X509_new with version := 2 } true true (-1)
  else if lib.X509_set_serialNumber_ret = 0 then
    GenerateCertBasic_END
      [Op.X509_new, Op.X509_set_version 2, Op.ASN1_INTEGER_new, Op.BN_new, Op.BN_rand 128 0 0,
       Op.BN_to_ASN1_INTEGER, Op.X509_set_serialNumber]
      { X509_new with version := 2 } true true (-1)
  else
    GenerateCertBasic_END
      [Op.X509_new, Op.X509_set_version 2, Op.ASN1_INTEGER_new, Op.BN_new, Op.BN_rand 128 0 0,
       Op.BN_to_ASN1_INTEGER, Op.X509_set_serialNumber,
       Op.X509_gmtime_adj TimeField.notBefore 0,
       Op.X509_gmtime_adj TimeField.notAfter (notAfterAdj lib.long_bits years),
       Op.X509_set_pubkey pubKey,
       Op.X509_get_subject_name CertRef.x509,
       Op.X509_NAME_add_entry_by_txt "C" s.country,
       Op.X509_NAME_add_entry_by_txt "ST" s.province,
       Op.X509_NAME_add_entry_by_txt "L" s.locality,
       Op.X509_NAME_add_entry_by_txt "O" s.org,
       Op.X509_NAME_add_entry_by_txt "OU" s.ou,
       Op.X509_NAME_add_entry_by_txt "CN" s.commonName]
      (GenerateCertBasic_fields lib s years pubKey
        { X509_new with version := 2, serialNumber := some lib.BN_rand_value })
      true true 0

/-- `X509_set_issuer_name(x509, name)`: copies `name` into the issuer field when
the library reports success. -/
def X509_set_issuer_name (lib : Lib) (name : List (String × String)) (x : X509) : X509 :=
  if lib.X509_set_issuer_name_ret ≠ 0 then { x with issuer := name } else x

/-- `X509_sign(x509, key, md)`: attaches a signature made with `key` and `md` when
the library reports success (a non-zero signature size). -/
def X509_sign (lib : Lib) (key : EVP_PKEY) (md : EVP_MD) (x : X509) : X509 :=
  if lib.X509_sign_ret ≠ 0 then { x with signature := some (key, md) } else x

/-- The `END:` block of the three signing builders (lines 217-224, 256-264,
306-313; the three copies are textually the same). -/
def Builder_END (trace : List Op) (x509 : X509) (ret : Int) : Run :=
  if ret ≠ 0 then { trace := trace ++ [Op.X509_free], ret := none }
  else { trace := trace, ret := some x509 }

/-- `GenerateMiddleCACert` (lines 183-225). -/
def GenerateMiddleCACert (lib : Lib) (s : Subject) (years : Nat) (pubKey caPriKey : EVP_PKEY)
    (caCert : X509) : Run :=
  let b := GenerateCertBasic lib s years pubKey
  match b.ret with
  | none => { trace := b.trace, ret := none }
  | some x0 =>
    let x1 := X509_set_issuer_name lib caCert.subject x0
    let t1 := b.trace ++ [Op.X509_get_subject_name CertRef.caCert,
                          Op.X509_set_issuer_name CertRef.caCert]
    let e0 := set_extension lib 0 CertRef.caCert x1 Nid.ext_key_usage "clientAuth, serverAuth"
    if e0.ret ≠ 0 then Builder_END (t1 ++ e0.trace) e0.cert e0.ret
    else
      let e1 := set_extension lib 1 CertRef.caCert e0.cert Nid.subject_key_identifier "hash"
      if e1.ret ≠ 0 then Builder_END (t1 ++ e0.trace ++ e1.trace) e1.cert e1.ret
      else
        let e2 := set_extension lib 2 CertRef.caCert e1.cert Nid.authority_key_identifier
          "keyid:always"
        if e2.ret ≠ 0 then Builder_END (t1 ++ e0.trace ++ e1.trace ++ e2.trace) e2.cert e2.ret
        else
          let e3 := set_extension lib 3 CertRef.caCert e2.cert Nid.key_usage
            "digitalSignature, keyEncipherment, keyCertSign, cRLSign"
          if e3.ret ≠ 0 then
            Builder_END (t1 ++ e0.trace ++ e1.trace ++ e2.trace ++ e3.trace) e3.cert e3.ret
          else
            let e4 := set_extension lib 4 CertRef.caCert e3.cert Nid.basic_constraints "CA:true"
            if e4.ret ≠ 0 then
              Builder_END (t1 ++ e0.trace ++ e1.trace ++ e2.trace ++ e3.trace ++ e4.trace)
                e4.cert e4.ret
            else
              Builder_END
                (t1 ++ e0.trace ++ e1.trace ++ e2.trace ++ e3.trace ++ e4.trace ++
                  [Op.X509_sign caPriKey EVP_MD.sm3])
                (X509_sign lib caPriKey EVP_MD.sm3 e4.cert) e4.ret

/-- `GenerateCert` (lines 228-265). -/
def GenerateCert (lib : Lib) (s : Subject) (years : Nat) (pubKey caPriKey : EVP_PKEY)
    (caCert : X509) : Run :=
  let b := GenerateCertBasic lib s years pubKey
  match b.ret with
  | none => { trace := b.trace, ret := none }
  | some x0 =>
    let x1 := X509_set_issuer_name lib caCert.subject x0
    let t1 := b.trace ++ [Op.X509_get_subject_name CertRef.caCert,
                          Op.X509_set_issuer_name CertRef.caCert]
    let e0 := set_extension lib 0 CertRef.caCert x1 Nid.authority_key_identifier "keyid:always"
    if e0.ret ≠ 0 then Builder_END (t1 ++ e0.trace) e0.cert e0.ret
    else
      let e1 := set_extension lib 1 CertRef.caCert e0.cert Nid.key_usage "digitalSignature"
      if e1.ret ≠ 0 then Builder_END (t1 ++ e0.trace ++ e1.trace) e1.cert e1.ret
      else
        let e2 := set_extension lib 2 CertRef.caCert e1.cert Nid.basic_constraints "CA:false"
        if e2.ret ≠ 0 then Builder_END (t1 ++ e0.trace ++ e1.trace ++ e2.trace) e2.cert e2.ret
        else
          Builder_END
            (t1 ++ e0.trace ++ e1.trace ++ e2.trace ++ [Op.X509_sign caPriKey EVP_MD.sm3])
            (X509_sign lib caPriKey EVP_MD.sm3 e2.cert) e2.ret

/-- `GenerateSelfSignCert` (lines 269-314).  The issuer context of every extension
is the certificate itself, in the state it has when the extension is built. -/
def GenerateSelfSignCert (lib : Lib) (s : Subject) (years : Nat) (pkey : EVP_PKEY) : Run :=
  let b := GenerateCertBasic lib s years pkey
  match b.ret with
  | none => { trace := b.trace, ret := none }
  | some x0 =>
    let x1 := X509_set_issuer_name lib x0.subject x0
    let t1 := b.trace ++ [Op.X509_get_subject_name CertRef.x509,
                          Op.X509_set_issuer_name CertRef.x509]
    let e0 := set_extension lib 0 CertRef.x509 x1 Nid.ext_key_usage "clientAuth, serverAuth"
    if e0.ret ≠ 0 then Builder_END (t1 ++ e0.trace) e0.cert e0.ret
    else
      let e1 := set_extension lib 1 CertRef.x509 e0.cert Nid.subject_key_identifier "hash"
      if e1.ret ≠ 0 then Builder_END (t1 ++ e0.trace ++ e1.trace) e1.cert e1.ret
      else
        let e2 := set_extension lib 2 CertRef.x509 e1.cert Nid.authority_key_identifier
          "keyid:always"
        if e2.ret ≠ 0 then Builder_END (t1 ++ e0.trace ++ e1.trace ++ e2.trace) e2.cert e2.ret
        else
          let e3 := set_extension lib 3 CertRef.x509 e2.cert Nid.key_usage
            "digitalSignature, keyEncipherment, keyCertSign, cRLSign"
          if e3.ret ≠ 0 then
            Builder_END (t1 ++ e0.trace ++ e1.trace ++ e2.trace ++ e3.trace) e3.cert e3.ret
          else
            let e4 := set_extension lib 4 CertRef.x509 e3.cert Nid.basic_constraints "CA:true"
            if e4.ret ≠ 0 then
              Builder_END (t1 ++ e0.trace ++ e1.trace ++ e2.trace ++ e3.trace ++ e4.trace)
                e4.cert e4.ret
            else
              Builder_END
                (t1 ++ e0.trace ++ e1.trace ++ e2.trace ++ e3.trace ++ e4.trace ++
                  [Op.X509_sign pkey EVP_MD.sm3])
                (X509_sign lib pkey EVP_MD.sm3 e4.cert) e4.ret

/-! ## Verification -/

/-- Outcome of the library's chain verification, as a function of the trust
store contents and the certificate under test (`X509_verify_cert`: 1 when a
chain is built and validated, 0 when it is not, negative on an error). -/
structure VerifyLib where
  X509_verify_cert : List X509 → X509 → Int

/-- `VerifyCert` (lines 59-78): a fresh store receives `cacert`, the context is
initialised with the store and `cert`, and the result of `X509_verify_cert` is
returned.  Allocation of the store and of the context is not checked by the
source and is taken to succeed. -/
def VerifyCert (lib : VerifyLib) (cert cacert : X509) : Int :=
  let store : List X509 := []
  let store := store ++ [cacert]
  let ret := lib.X509_verify_cert store cert
  ret

/-! ## Accessors writing into caller buffers -/

/-- Memory seen through a `void *`: the byte stored at each offset. -/
abbrev Mem := Nat → Nat

/-- `memcpy(dst, src, n)` for `n` not larger than the length of `src`. -/
def memcpy (dst : Mem) (src : List Nat) (n : Nat) : Mem :=
  fun i => if i < n then src.getD i 0 else dst i

/-- Assignment `buf[i] = v`. -/
def storeByte (m : Mem) (i v : Nat) : Mem :=
  fun j => if j = i then v else m j

/-- `EVP_MAX_MD_SIZE` from the library headers. -/
def EVP_MAX_MD_SIZE : Nat := 64

/-- Outcomes of the encoding routines used by the accessors.
`ASN1_TIME_print` gives the bytes left in the memory BIO for a time value,
`X509_digest` the digest bytes (`none` on failure), `PEM_write_bio_X509` the
PEM text left in the memory BIO (`none` when it returns 0). -/
structure CodecLib where
  ASN1_TIME_print : Option Int → List Nat
  X509_digest : X509 → EVP_MD → Option (List Nat)
  BIO_new_ok : Bool
  PEM_write_bio_X509 : X509 → Option (List Nat)

/-- `GetExipreTime` (lines 19-33).  Returns the buffer contents and the C return
value; `none` stands for the undefined behaviour of `memcpy` with the wrapped
size `bptr->length-1` when the printed text is empty. -/
def GetExipreTime (lib : CodecLib) (x : X509) (timeBuf : Mem) (bufLen : Nat) :
    Option (Mem × Int) :=
  let data := lib.ASN1_TIME_print x.notAfter
  let length := data.length
  if bufLen < length then some (timeBuf, 0)
  else if length = 0 then none
  else
    let m1 := memcpy timeBuf data (length - 1)
    let m2 := storeByte m1 (length - 1) 0
    some (m2, 1)

/-- `GetFingerPrintf` (lines 40-57).  Returns the buffer contents and the value
of `*bufLen` after the call. -/
def GetFingerPrintf (lib : CodecLib) (x : X509) (fingerPrintBuf : Mem) (bufLen : Nat) :
    Mem × Nat :=
  let md0 : List Nat := List.replicate EVP_MAX_MD_SIZE 0
  let r : List Nat × Nat :=
    match lib.X509_digest x EVP_MD.sha256 with
    | some d => (d ++ md0.drop d.length, d.length)
    | none => (md0, 0)
  let md := r.1
  let n := r.2
  if bufLen < n then (fingerPrintBuf, bufLen)
  else (memcpy fingerPrintBuf md n, n)

/-- `X509_to_PEM` (lines 317-347).  Returns the buffer contents and the value of
`*pemBufLen` after the call. -/
def X509_to_PEM (lib : CodecLib) (cert : Option X509) (pemBuf : Mem) (pemBufLen : Nat) :
    Mem × Nat :=
  match cert with
  | none => (pemBuf, pemBufLen)
  | some c =>
    if lib.BIO_new_ok = false then (pemBuf, pemBufLen)
    else
      match lib.PEM_write_bio_X509 c with
      | none => (pemBuf, pemBufLen)
      | some data =>
        if pemBufLen ≤ data.length then (pemBuf, pemBufLen)
        else (memcpy pemBuf data data.length, data.length % UINT_RANGE)

/-- Bytes of a C string: the bytes of `m` from offset 0 up to the first NUL,
looking at no more than `fuel` bytes. -/
def cstr (m : Mem) (fuel : Nat) : List Nat :=
  ((List.range fuel).map m).takeWhile (fun b => b != 0)

/-- Bytes of an ASCII text. -/
def bytes (s : String) : List Nat := s.toList.map Char.toNat

/-! ## Vocabulary of the properties -/

/-- The three builders that add extensions and sign. -/
inductive Builder where
  | GenerateSelfSignCert
  | GenerateMiddleCACert
  | GenerateCert
  deriving DecidableEq, Repr

/-- Runs a builder; `GenerateSelfSignCert` takes no CA key and no CA certificate. -/
def Builder.run (b : Builder) (lib : Lib) (s : Subject) (years : Nat)
    (pubKey caPriKey : EVP_PKEY) (caCert : X509) : Run :=
  match b with
  | Builder.GenerateSelfSignCert => GmCert.GenerateSelfSignCert lib s years pubKey
  | Builder.GenerateMiddleCACert => GmCert.GenerateMiddleCACert lib s years pubKey caPriKey caCert
  | Builder.GenerateCert => GmCert.GenerateCert lib s years pubKey caPriKey caCert

/-- Extension set of the self-signed and intermediate-CA paths, in the order the
specification enumerates it. -/
def caExtensions : List X509_EXTENSION :=
  [{ nid := Nid.ext_key_usage, value := "clientAuth, serverAuth" },
   { nid := Nid.subject_key_identifier, value := "hash" },
   { nid := Nid.authority_key_identifier, value := "keyid:always" },
   { nid := Nid.key_usage, value := "digitalSignature, keyEncipherment, keyCertSign, cRLSign" },
   { nid := Nid.basic_constraints, value := "CA:true" }]

/-- Extension set of the leaf path, as the specification enumerates it. -/
def leafExtensions : List X509_EXTENSION :=
  [{ nid := Nid.authority_key_identifier, value := "keyid:always" },
   { nid := Nid.key_usage, value := "digitalSignature" },
   { nid := Nid.basic_constraints, value := "CA:false" }]

/-- Extension sequence of each builder. -/
def Builder.extensionSequence : Builder → List X509_EXTENSION
  | Builder.GenerateSelfSignCert => caExtensions
  | Builder.GenerateMiddleCACert => caExtensions
  | Builder.GenerateCert => leafExtensions

/-- The extensions whose construction was attempted in a trace, in order. -/
def extAttempts : List Op → List X509_EXTENSION
  | [] => []
  | Op.X509V3_EXT_conf_nid nid value :: t => { nid := nid, value := value } :: extAttempts t
  | _ :: t => extAttempts t

/-- Library operations of one successful `set_extension` call. -/
def extensionOps (issuer : CertRef) (e : X509_EXTENSION) : List Op :=
  [Op.X509V3_set_ctx issuer, Op.X509V3_EXT_conf_nid e.nid e.value,
   Op.X509_add_ext e.nid, Op.X509_EXTENSION_free]

/-- Library operations that follow `GenerateCertBasic` in a CA-issuing path, as
the specification describes them: the issuer name is taken from `nameOf`, the
five extensions are built with `extIssuer` as issuer context, and the
certificate is then signed with `signKey` and SM3. -/
def caIssuanceOps (nameOf extIssuer : CertRef) (signKey : EVP_PKEY) : List Op :=
  [Op.X509_get_subject_name nameOf, Op.X509_set_issuer_name nameOf] ++
  extensionOps extIssuer { nid := Nid.ext_key_usage, value := "clientAuth, serverAuth" } ++
  extensionOps extIssuer { nid := Nid.subject_key_identifier, value := "hash" } ++
  extensionOps extIssuer { nid := Nid.authority_key_identifier, value := "keyid:always" } ++
  extensionOps extIssuer
    { nid := Nid.key_usage,
      value := "digitalSignature, keyEncipherment, keyCertSign, cRLSign" } ++
  extensionOps extIssuer { nid := Nid.basic_constraints, value := "CA:true" } ++
  [Op.X509_sign signKey EVP_MD.sm3]

/-- Every library call of a builder run reports success. -/
def Lib.AllSucceed (lib : Lib) : Prop :=
  lib.X509_new_ok = true ∧ lib.X509_set_version_ret = 1 ∧ lib.ASN1_INTEGER_new_ok = true ∧
  lib.BN_new_ok = true ∧ lib.BN_rand_ret = 1 ∧ lib.BN_to_ASN1_INTEGER_ok = true ∧
  lib.X509_set_serialNumber_ret = 1 ∧ (∀ k < 2, lib.X509_gmtime_adj_ok k = true) ∧
  lib.X509_set_pubkey_ret = 1 ∧ (∀ k < 6, lib.X509_NAME_add_entry_by_txt_ret k = 1) ∧
  lib.X509_set_issuer_name_ret = 1 ∧ (∀ k < 5, lib.X509V3_EXT_conf_nid_ok k = true) ∧
  (∀ k < 5, lib.X509_add_ext_ret k = 1) ∧ 0 < lib.X509_sign_ret

instance (lib : Lib) : Decidable lib.AllSucceed := by
  unfold Lib.AllSucceed
  infer_instance

/-! ## Concrete inputs -/

/-- A run on an LP64 platform in which every library call succeeds. -/
def libOk : Lib :=
  { long_bits := 64,
    X509_new_ok := true,
    X509_set_version_ret := 1,
    ASN1_INTEGER_new_ok := true,
    BN_new_ok := true,
    BN_rand_ret := 1,
    BN_rand_value := 2 ^ 127 + 5,
    BN_to_ASN1_INTEGER_ok := true,
    X509_set_serialNumber_ret := 1,
    time := fun _ => 1793559120,
    X509_gmtime_adj_ok := fun _ => true,
    X509_set_pubkey_ret := 1,
    X509_NAME_add_entry_by_txt_ret := fun _ => 1,
    X509_set_issuer_name_ret := 1,
    X509V3_EXT_conf_nid_ok := fun _ => true,
    X509_add_ext_ret := fun _ => 1,
    X509_sign_ret := 72,
    sno_indeterminate_nonnull := false }

/-- As `libOk`, but `X509_set_pubkey` rejects the key (it returns 0). -/
def libPubkeyRejected : Lib := { libOk with X509_set_pubkey_ret := 0 }

/-- As `libOk`, but `X509_sign` fails (it returns 0). -/
def libSignFails : Lib := { libOk with X509_sign_ret := 0 }

/-- As `libOk`, but the extension at position 2 cannot be built. -/
def libExt2Fails : Lib := { libOk with X509V3_EXT_conf_nid_ok := fun k => k != 2 }

/-- A subject. -/
def subjectCN : Subject :=
  { country := "CN", province := "GD", locality := "SZ", org := "Org", ou := "Unit",
    commonName := "node0" }

/-- Key of the certificate subject. -/
def keyA : EVP_PKEY := { id := 1 }

/-- Key of the certificate authority. -/
def keyCA : EVP_PKEY := { id := 2 }

/-- Certificate of the certificate authority. -/
def certCA : X509 :=
  { X509_new with version := 2, subject := [("C", "CN"), ("CN", "root")],
                  issuer := [("C", "CN"), ("CN", "root")], pubkey := some keyCA }

/-- Encoding outcomes for a certificate whose not-after time prints as
`Nov  1 18:52:00 2027 GMT` (24 characters). -/
def codecNov : CodecLib :=
  { ASN1_TIME_print := fun _ => bytes "Nov  1 18:52:00 2027 GMT",
    X509_digest := fun _ _ => some (List.range 32),
    BIO_new_ok := true,
    PEM_write_bio_X509 := fun _ => some (bytes "-----BEGIN CERTIFICATE-----") }

/-- As `codecNov`, but `X509_digest` fails, so the digest length `n` of
`GetFingerPrintf` keeps its initial value 0. -/
def codecDigestFails : CodecLib := { codecNov with X509_digest := fun _ _ => none }

/-- A caller buffer filled with the byte 255. -/
def bufFF : Mem := fun _ => 255

/-- A library whose chain verification reports an error (a negative result). -/
def verifyError : VerifyLib := { X509_verify_cert := fun _ _ => -1 }

/-! ## Theorems -/

/-- C1, evaluated at `years = 137`: the source computes `31536000*years` in
`unsigned int`, so the offset handed to the not-after adjustment is
`4320432000 mod 2^32 = 25464704` and not the product `137 * 31536000`; the
not-before offset is 0.  The returned certificate expires 25464704 seconds after
issuance.  136 is the largest number of years whose product is passed exactly. -/
theorem C1_notAfter_offset_wraps_at_137 :
    notAfterAdj 64 137 = 25464704 ∧ notAfterAdj 32 137 = 25464704 ∧
    notAfterAdj 64 137 ≠ 137 * 31536000 ∧
    notAfterAdj 64 136 = 136 * 31536000 ∧
    Op.X509_gmtime_adj TimeField.notBefore 0 ∈
      (GenerateCertBasic libOk subjectCN 137 keyA).trace ∧
    Op.X509_gmtime_adj TimeField.notAfter 25464704 ∈
      (GenerateCertBasic libOk subjectCN 137 keyA).trace ∧
    Op.X509_gmtime_adj TimeField.notAfter (137 * 31536000) ∉
      (GenerateCertBasic libOk subjectCN 137 keyA).trace ∧
    (GenerateCertBasic libOk subjectCN 137 keyA).ret.map (fun c => (c.notBefore, c.notAfter)) =
      some (some 1793559120, some (1793559120 + 25464704)) := by
  decide

/-- C3, evaluated at a run in which `X509_sign` returns 0: each of
`GenerateSelfSignCert`, `GenerateMiddleCACert` and `GenerateCert` still returns
a certificate (not `NULL`), the certificate carries no signature, and
`X509_free` is never called. -/
theorem C3_sign_failure_returns_unsigned_certificate :
    ((GenerateSelfSignCert libSignFails subjectCN 1 keyA).ret.map (fun c => c.signature) =
        some none ∧
      Op.X509_free ∉ (GenerateSelfSignCert libSignFails subjectCN 1 keyA).trace) ∧
    ((GenerateMiddleCACert libSignFails subjectCN 1 keyA keyCA certCA).ret.map
        (fun c => c.signature) = some none ∧
      Op.X509_free ∉ (GenerateMiddleCACert libSignFails subjectCN 1 keyA keyCA certCA).trace) ∧
    ((GenerateCert libSignFails subjectCN 1 keyA keyCA certCA).ret.map
        (fun c => c.signature) = some none ∧
      Op.X509_free ∉ (GenerateCert libSignFails subjectCN 1 keyA keyCA certCA).trace) := by
  decide

/-- C4, evaluated at a run in which `X509_set_pubkey` returns 0:
`GenerateCertBasic` still returns a certificate (not `NULL`), and that
certificate has no public key bound to it. -/
theorem C4_pubkey_rejection_is_ignored :
    (GenerateCertBasic libPubkeyRejected subjectCN 1 keyA).ret.map (fun c => c.pubkey) =
      some none ∧
    Op.X509_set_pubkey keyA ∈ (GenerateCertBasic libPubkeyRejected subjectCN 1 keyA).trace ∧
    Op.X509_free ∉ (GenerateCertBasic libPubkeyRejected subjectCN 1 keyA).trace := by
  decide

/-- C8, evaluated at a certificate whose not-after time prints as the 24
characters `Nov  1 18:52:00 2027 GMT` and a buffer of capacity 64:
`GetExipreTime` returns 1 and leaves the C string `Nov  1 18:52:00 2027 GM` in
the buffer; the last character of the printed text is dropped. -/
theorem C8_expiry_text_loses_last_character :
    (GetExipreTime codecNov certCA bufFF 64).map (fun r => (cstr r.1 64, r.2)) =
      some (bytes "Nov  1 18:52:00 2027 GM", 1) ∧
    bytes "Nov  1 18:52:00 2027 GM" ≠ bytes "Nov  1 18:52:00 2027 GMT" ∧
    codecNov.ASN1_TIME_print certCA.notAfter = bytes "Nov  1 18:52:00 2027 GMT" := by
  decide

/-- C9 as stated fails: when the library's chain verification reports an error
(-1), `VerifyCert` returns -1, which is non-zero although verification did not
succeed. -/
theorem C9_negative_result_is_nonzero :
    ¬ (VerifyCert verifyError certCA certCA ≠ 0 ↔
        verifyError.X509_verify_cert [certCA] certCA = 1) := by
  decide

/-- C9, amended: `VerifyCert cert cacert` runs the library's chain verification
of `cert` against a store holding only `cacert` and returns the library's result
unchanged; so its result is 1 exactly when verification succeeded, it is 0
exactly when the library returned 0, and it is negative exactly when the library
reported an error. -/
theorem C9_VerifyCert_returns_library_result (lib : VerifyLib) (cert cacert : X509) :
    VerifyCert lib cert cacert = lib.X509_verify_cert [cacert] cert ∧
    (VerifyCert lib cert cacert = 1 ↔ lib.X509_verify_cert [cacert] cert = 1) ∧
    (VerifyCert lib cert cacert = 0 ↔ lib.X509_verify_cert [cacert] cert = 0) ∧
    (VerifyCert lib cert cacert < 0 ↔ lib.X509_verify_cert [cacert] cert < 0) := by
  simp [VerifyCert]

/-- C7 as stated fails for the fingerprint: when `X509_digest` fails, the digest
length stays 0, so a capacity of 8 (under 32) is not refused and
`GetFingerPrintf` stores 0 into `*bufLen`; the in/out length is changed. -/
theorem C7_failed_digest_resets_length :
    (8 : Nat) < 32 ∧
    codecDigestFails.X509_digest certCA EVP_MD.sha256 = none ∧
    (GetFingerPrintf codecDigestFails certCA bufFF 8).2 = 0 ∧
    (GetFingerPrintf codecDigestFails certCA bufFF 8).2 ≠ 8 := by
  decide

/-- C7, amended: an accessor called with a capacity smaller than the length of
its result writes nothing.  `GetExipreTime` returns 0 and leaves the buffer as
it was.  `GetFingerPrintf`, when the digest is computed (32 bytes for SHA-256,
so this covers every capacity under 32), leaves both the buffer and `*bufLen`
as they were; when `X509_digest` fails, every byte of the buffer is still
unchanged.  `X509_to_PEM` leaves both the buffer and `*pemBufLen` as they were,
also when the PEM encoding fails. -/
theorem C7_undersized_buffer_is_untouched (lib : CodecLib) (x : X509) (buf : Mem) (cap : Nat) :
    (cap < (lib.ASN1_TIME_print x.notAfter).length →
      GetExipreTime lib x buf cap = some (buf, 0)) ∧
    (∀ d, lib.X509_digest x EVP_MD.sha256 = some d → cap < d.length →
      GetFingerPrintf lib x buf cap = (buf, cap)) ∧
    (∀ d, lib.X509_digest x EVP_MD.sha256 = some d → d.length = 32 → cap < 32 →
      GetFingerPrintf lib x buf cap = (buf, cap)) ∧
    (lib.X509_digest x EVP_MD.sha256 = none → (GetFingerPrintf lib x buf cap).1 = buf) ∧
    (∀ p, lib.PEM_write_bio_X509 x = some p → cap < p.length →
      X509_to_PEM lib (some x) buf cap = (buf, cap)) ∧
    (lib.PEM_write_bio_X509 x = none → X509_to_PEM lib (some x) buf cap = (buf, cap)) := by
  refine ⟨?_, ?_, ?_, ?_, ?_, ?_⟩
  · intro h
    simp [GetExipreTime, h]
  · intro d hd h
    simp [GetFingerPrintf, hd, h]
  · intro d hd hlen h
    have h2 : cap < d.length := by omega
    simp [GetFingerPrintf, hd, h2]
  · intro hd
    funext i
    simp [GetFingerPrintf, hd, memcpy]
  · intro p hp h
    have h2 : cap ≤ p.length := by omega
    cases hb : lib.BIO_new_ok <;> simp [X509_to_PEM, hb, hp, h2]
  · intro hp
    cases hb : lib.BIO_new_ok <;> simp [X509_to_PEM, hb, hp]

/-- Witness of C7 at capacity 8: the expiry text has 24 bytes, the digest 32 and
the PEM text 27. -/
theorem C7_undersized_buffer_is_untouched_witness :
    GetExipreTime codecNov certCA bufFF 8 = some (bufFF, 0) ∧
    GetFingerPrintf codecNov certCA bufFF 8 = (bufFF, 8) ∧
    X509_to_PEM codecNov (some certCA) bufFF 8 = (bufFF, 8) ∧
    (GetFingerPrintf codecDigestFails certCA bufFF 8).1 = bufFF :=
  ⟨(C7_undersized_buffer_is_untouched codecNov certCA bufFF 8).1 (by decide),
   (C7_undersized_buffer_is_untouched codecNov certCA bufFF 8).2.1 (List.range 32) rfl
     (by decide),
   (C7_undersized_buffer_is_untouched codecNov certCA bufFF 8).2.2.2.2.1
     (bytes "-----BEGIN CERTIFICATE-----") rfl (by decide),
   (C7_undersized_buffer_is_untouched codecDigestFails certCA bufFF 8).2.2.2.1 rfl⟩

/-- C10: for a certificate whose PEM encoding succeeds with text `p` of length
`L` and an initial `*pemBufLen = c`, `X509_to_PEM` writes exactly when `L < c`:
then the first `L` bytes of the buffer are `p`, every later byte is unchanged
(no terminator) and `*pemBufLen` becomes `L`; when `c ≤ L`, in particular when
`c = L`, the buffer and `*pemBufLen` are unchanged.  `GetFingerPrintf` and
`GetExipreTime` accept a capacity equal to the length of their result. -/
theorem C10_pem_needs_strictly_larger_buffer (lib : CodecLib) (x : X509) (p : List Nat)
    (buf : Mem) (c : Nat) (hbio : lib.BIO_new_ok = true)
    (hp : lib.PEM_write_bio_X509 x = some p) (hc : c < UINT_RANGE) :
    (p.length < c →
      (X509_to_PEM lib (some x) buf c).2 = p.length ∧
      (∀ i, i < p.length → (X509_to_PEM lib (some x) buf c).1 i = p.getD i 0) ∧
      (∀ i, p.length ≤ i → (X509_to_PEM lib (some x) buf c).1 i = buf i)) ∧
    (c ≤ p.length → X509_to_PEM lib (some x) buf c = (buf, c)) ∧
    (c = p.length → X509_to_PEM lib (some x) buf c = (buf, c)) ∧
    (∀ d, lib.X509_digest x EVP_MD.sha256 = some d →
      (GetFingerPrintf lib x buf d.length).2 = d.length ∧
      ∀ i, i < d.length → (GetFingerPrintf lib x buf d.length).1 i = d.getD i 0) ∧
    (lib.ASN1_TIME_print x.notAfter ≠ [] →
      (GetExipreTime lib x buf (lib.ASN1_TIME_print x.notAfter).length).map (fun r => r.2) =
        some 1) := by
  refine ⟨?_, ?_, ?_, ?_, ?_⟩
  · intro h
    have h1 : ¬ c ≤ p.length := by omega
    have h2 : p.length % UINT_RANGE = p.length := Nat.mod_eq_of_lt (by omega)
    refine ⟨?_, ?_, ?_⟩
    · simp [X509_to_PEM, hbio, hp, h1, h2]
    · intro i hi
      simp [X509_to_PEM, hbio, hp, h1, memcpy, hi]
    · intro i hi
      have h3 : ¬ i < p.length := by omega
      simp [X509_to_PEM, hbio, hp, h1, memcpy, h3]
  · intro h
    simp [X509_to_PEM, hbio, hp, h]
  · intro h
    simp [X509_to_PEM, hbio, hp, h]
  · intro d hd
    refine ⟨?_, ?_⟩
    · simp [GetFingerPrintf, hd]
    · intro i hi
      simp [GetFingerPrintf, hd, memcpy, hi, List.getElem?_append_left hi]
  · intro h
    have h1 : (lib.ASN1_TIME_print x.notAfter).length ≠ 0 := by
      simpa using h
    simp [GetExipreTime, h]

/-- Witness of C10: the PEM text has 27 bytes; capacity 27 is refused, capacity 28
is accepted. -/
theorem C10_pem_needs_strictly_larger_buffer_witness :
    X509_to_PEM codecNov (some certCA) bufFF 27 = (bufFF, 27) ∧
    (X509_to_PEM codecNov (some certCA) bufFF 28).2 = 27 ∧
    (X509_to_PEM codecNov (some certCA) bufFF 28).1 27 = 255 :=
  ⟨(C10_pem_needs_strictly_larger_buffer codecNov certCA (bytes "-----BEGIN CERTIFICATE-----")
      bufFF 27 rfl rfl (by decide)).2.1 (by decide),
   ((C10_pem_needs_strictly_larger_buffer codecNov certCA (bytes "-----BEGIN CERTIFICATE-----")
      bufFF 28 rfl rfl (by decide)).1 (by decide)).1,
   ((C10_pem_needs_strictly_larger_buffer codecNov certCA (bytes "-----BEGIN CERTIFICATE-----")
      bufFF 28 rfl rfl (by decide)).1 (by decide)).2.2 27 (by decide)⟩

/-! ### Facts about `GenerateCertBasic` shared by the builder theorems -/

theorem extAttempts_append (a b : List Op) :
    extAttempts (a ++ b) = extAttempts a ++ extAttempts b := by
  induction a with
  | nil => rfl
  | cons o t ih => cases o <;> simp [extAttempts, ih]

theorem GenerateCertBasic_END_extAttempts (t : List Op) (x : X509) (sno btmp : Bool)
    (ret : Int) : extAttempts (GenerateCertBasic_END t x sno btmp ret).trace = extAttempts t := by
  unfold GenerateCertBasic_END
  cases sno <;> cases btmp <;> by_cases h : ret = 0 <;>
    simp [h, extAttempts_append, extAttempts]

theorem GenerateCertBasic_END_sign (t : List Op) (x : X509) (sno btmp : Bool)
    (ret : Int) (key : EVP_PKEY) (md : EVP_MD) :
    Op.X509_sign key md ∈ (GenerateCertBasic_END t x sno btmp ret).trace ↔
      Op.X509_sign key md ∈ t := by
  unfold GenerateCertBasic_END
  cases sno <;> cases btmp <;> by_cases h : ret = 0 <;> simp [h]

theorem GenerateCertBasic_END_freed (t : List Op) (x : X509) (sno btmp : Bool)
    (ret : Int) (h : (GenerateCertBasic_END t x sno btmp ret).ret = none) :
    Op.X509_free ∈ (GenerateCertBasic_END t x sno btmp ret).trace := by
  revert h
  unfold GenerateCertBasic_END
  cases sno <;> cases btmp <;> by_cases h : ret = 0 <;> simp [h]

theorem GenerateCertBasic_extAttempts (lib : Lib) (s : Subject) (years : Nat)
    (pubKey : EVP_PKEY) : extAttempts (GenerateCertBasic lib s years pubKey).trace = [] := by
  unfold GenerateCertBasic
  split_ifs <;>
    simp [GenerateCertBasic_END_extAttempts, extAttempts_append, extAttempts]

theorem GenerateCertBasic_no_sign (lib : Lib) (s : Subject) (years : Nat)
    (pubKey key : EVP_PKEY) (md : EVP_MD) :
    Op.X509_sign key md ∉ (GenerateCertBasic lib s years pubKey).trace := by
  unfold GenerateCertBasic
  split_ifs <;> simp [GenerateCertBasic_END_sign]

theorem GenerateCertBasic_freed (lib : Lib) (s : Subject) (years : Nat) (pubKey : EVP_PKEY)
    (hnew : lib.X509_new_ok = true) (hret : (GenerateCertBasic lib s years pubKey).ret = none) :
    Op.X509_free ∈ (GenerateCertBasic lib s years pubKey).trace := by
  revert hret
  unfold GenerateCertBasic
  split_ifs with h1 <;> intro hret
  · simp [hnew] at h1
  all_goals exact GenerateCertBasic_END_freed _ _ _ _ _ hret

set_option maxHeartbeats 1600000 in
theorem GenerateSelfSignCert_abort (lib : Lib) (s : Subject) (years : Nat)
    (pubKey : EVP_PKEY) (k : Nat) (hk : k < 5)
    (hfail : lib.X509V3_EXT_conf_nid_ok k = false) :
    (GenerateSelfSignCert lib s years pubKey).ret = none ∧
    (∀ key md, Op.X509_sign key md ∉ (GenerateSelfSignCert lib s years pubKey).trace) ∧
    (extAttempts (GenerateSelfSignCert lib s years pubKey).trace).length ≤ k + 1 ∧
    extAttempts (GenerateSelfSignCert lib s years pubKey).trace =
      caExtensions.take (extAttempts (GenerateSelfSignCert lib s years pubKey).trace).length ∧
    (lib.X509_new_ok = true → Op.X509_free ∈ (GenerateSelfSignCert lib s years pubKey).trace) ∧
    ((GenerateCertBasic lib s years pubKey).ret ≠ none →
      (∀ j, j < k → lib.X509V3_EXT_conf_nid_ok j = true) →
      extAttempts (GenerateSelfSignCert lib s years pubKey).trace = caExtensions.take (k + 1)) := by
  have hE := GenerateCertBasic_extAttempts lib s years pubKey
  have hS := GenerateCertBasic_no_sign lib s years pubKey
  have hF := GenerateCertBasic_freed lib s years pubKey
  unfold GenerateSelfSignCert
  cases hb : (GenerateCertBasic lib s years pubKey).ret with
  | none =>
    rw [hb] at hF
    simp only [hb]
    simp [hE, hS, caExtensions]
    intro h
    exact hF h rfl
  | some x0 =>
    simp only [hb]
    clear hF
    cases h0 : lib.X509V3_EXT_conf_nid_ok 0 <;>
      [skip; (cases h1 : lib.X509V3_EXT_conf_nid_ok 1 <;>
      [skip; (cases h2 : lib.X509V3_EXT_conf_nid_ok 2 <;>
      [skip; (cases h3 : lib.X509V3_EXT_conf_nid_ok 3 <;>
      [skip; (cases h4 : lib.X509V3_EXT_conf_nid_ok 4)])])])]
    all_goals
      interval_cases k <;>
      first
      | (exfalso; simp_all; done)
      | (simp [set_extension, Builder_END, extAttempts_append, extAttempts, caExtensions, *] <;>
         first
         | exact ⟨0, by omega, by assumption⟩
         | exact ⟨1, by omega, by assumption⟩
         | exact ⟨2, by omega, by assumption⟩
         | exact ⟨3, by omega, by assumption⟩)

set_option maxHeartbeats 1600000 in
theorem GenerateMiddleCACert_abort (lib : Lib) (s : Subject) (years : Nat)
    (pubKey caPriKey : EVP_PKEY) (caCert : X509) (k : Nat) (hk : k < 5)
    (hfail : lib.X509V3_EXT_conf_nid_ok k = false) :
    (GenerateMiddleCACert lib s years pubKey caPriKey caCert).ret = none ∧
    (∀ key md, Op.X509_sign key md ∉ (GenerateMiddleCACert lib s years pubKey caPriKey caCert).trace) ∧
    (extAttempts (GenerateMiddleCACert lib s years pubKey caPriKey caCert).trace).length ≤ k + 1 ∧
    extAttempts (GenerateMiddleCACert lib s years pubKey caPriKey caCert).trace =
      caExtensions.take (extAttempts (GenerateMiddleCACert lib s years pubKey caPriKey caCert).trace).length ∧
    (lib.X509_new_ok = true → Op.X509_free ∈ (GenerateMiddleCACert lib s years pubKey caPriKey caCert).trace) ∧
    ((GenerateCertBasic lib s years pubKey).ret ≠ none →
      (∀ j, j < k → lib.X509V3_EXT_conf_nid_ok j = true) →
      extAttempts (GenerateMiddleCACert lib s years pubKey caPriKey caCert).trace = caExtensions.take (k + 1)) := by
  have hE := GenerateCertBasic_extAttempts lib s years pubKey
  have hS := GenerateCertBasic_no_sign lib s years pubKey
  have hF := GenerateCertBasic_freed lib s years pubKey
  unfold GenerateMiddleCACert
  cases hb : (GenerateCertBasic lib s years pubKey).ret with
  | none =>
    rw [hb] at hF
    simp only [hb]
    simp [hE, hS, caExtensions]
    intro h
    exact hF h rfl
  | some x0 =>
    simp only [hb]
    clear hF
    cases h0 : lib.X509V3_EXT_conf_nid_ok 0 <;>
      [skip; (cases h1 : lib.X509V3_EXT_conf_nid_ok 1 <;>
      [skip; (cases h2 : lib.X509V3_EXT_conf_nid_ok 2 <;>
      [skip; (cases h3 : lib.X509V3_EXT_conf_nid_ok 3 <;>
      [skip; (cases h4 : lib.X509V3_EXT_conf_nid_ok 4)])])])]
    all_goals
      interval_cases k <;>
      first
      | (exfalso; simp_all; done)
      | (simp [set_extension, Builder_END, extAttempts_append, extAttempts, caExtensions, *] <;>
         first
         | exact ⟨0, by omega, by assumption⟩
         | exact ⟨1, by omega, by assumption⟩
         | exact ⟨2, by omega, by assumption⟩
         | exact ⟨3, by omega, by assumption⟩)

set_option maxHeartbeats 1600000 in
theorem GenerateCert_abort (lib : Lib) (s : Subject) (years : Nat)
    (pubKey caPriKey : EVP_PKEY) (caCert : X509) (k : Nat) (hk : k < 3)
    (hfail : lib.X509V3_EXT_conf_nid_ok k = false) :
    (GenerateCert lib s years pubKey caPriKey caCert).ret = none ∧
    (∀ key md, Op.X509_sign key md ∉ (GenerateCert lib s years pubKey caPriKey caCert).trace) ∧
    (extAttempts (GenerateCert lib s years pubKey caPriKey caCert).trace).length ≤ k + 1 ∧
    extAttempts (GenerateCert lib s years pubKey caPriKey caCert).trace =
      leafExtensions.take (extAttempts (GenerateCert lib s years pubKey caPriKey caCert).trace).length ∧
    (lib.X509_new_ok = true → Op.X509_free ∈ (GenerateCert lib s years pubKey caPriKey caCert).trace) ∧
    ((GenerateCertBasic lib s years pubKey).ret ≠ none →
      (∀ j, j < k → lib.X509V3_EXT_conf_nid_ok j = true) →
      extAttempts (GenerateCert lib s years pubKey caPriKey caCert).trace = leafExtensions.take (k + 1)) := by
  have hE := GenerateCertBasic_extAttempts lib s years pubKey
  have hS := GenerateCertBasic_no_sign lib s years pubKey
  have hF := GenerateCertBasic_freed lib s years pubKey
  unfold GenerateCert
  cases hb : (GenerateCertBasic lib s years pubKey).ret with
  | none =>
    rw [hb] at hF
    simp only [hb]
    simp [hE, hS, leafExtensions]
    intro h
    exact hF h rfl
  | some x0 =>
    simp only [hb]
    clear hF
    cases h0 : lib.X509V3_EXT_conf_nid_ok 0 <;>
      [skip; (cases h1 : lib.X509V3_EXT_conf_nid_ok 1 <;>
      [skip; (cases h2 : lib.X509V3_EXT_conf_nid_ok 2)])]
    all_goals
      interval_cases k <;>
      first
      | (exfalso; simp_all; done)
      | (simp [set_extension, Builder_END, extAttempts_append, extAttempts, leafExtensions, *] <;>
         first
         | exact ⟨0, by omega, by assumption⟩
         | exact ⟨1, by omega, by assumption⟩)

theorem X509_gmtime_adj_untouched (lib : Lib) (k : Nat) (f : TimeField) (adj : Int) (x : X509) :
    (X509_gmtime_adj lib k f adj x).extensions = x.extensions ∧
    (X509_gmtime_adj lib k f adj x).signature = x.signature ∧
    (X509_gmtime_adj lib k f adj x).issuer = x.issuer := by
  unfold X509_gmtime_adj
  cases f <;> split_ifs <;> simp

theorem X509_NAME_add_entry_by_txt_untouched (lib : Lib) (k : Nat) (field value : String)
    (x : X509) :
    (X509_NAME_add_entry_by_txt lib k field value x).extensions = x.extensions ∧
    (X509_NAME_add_entry_by_txt lib k field value x).signature = x.signature ∧
    (X509_NAME_add_entry_by_txt lib k field value x).issuer = x.issuer := by
  unfold X509_NAME_add_entry_by_txt
  split_ifs <;> simp

theorem GenerateCertBasic_fields_untouched (lib : Lib) (s : Subject) (years : Nat)
    (pubKey : EVP_PKEY) (x : X509) :
    (GenerateCertBasic_fields lib s years pubKey x).extensions = x.extensions ∧
    (GenerateCertBasic_fields lib s years pubKey x).signature = x.signature ∧
    (GenerateCertBasic_fields lib s years pubKey x).issuer = x.issuer := by
  by_cases hp : lib.X509_set_pubkey_ret = 0 <;>
    simp [GenerateCertBasic_fields, hp, X509_gmtime_adj_untouched,
      X509_NAME_add_entry_by_txt_untouched]

theorem GenerateCertBasic_succeeds (lib : Lib) (s : Subject) (years : Nat)
    (pubKey : EVP_PKEY) (h : lib.AllSucceed) :
    ∃ x0, (GenerateCertBasic lib s years pubKey).ret = some x0 ∧ x0.extensions = [] ∧
      x0.signature = none := by
  obtain ⟨h1, h2, h3, h4, h5, h6, h7, -⟩ := h
  refine ⟨GenerateCertBasic_fields lib s years pubKey
    { X509_new with version := 2, serialNumber := some lib.BN_rand_value }, ?_, ?_, ?_⟩
  · simp [GenerateCertBasic, GenerateCertBasic_END, h1, h2, h3, h4, h5, h6, h7]
  · simp [(GenerateCertBasic_fields_untouched lib s years pubKey _).1, X509_new]
  · simp [(GenerateCertBasic_fields_untouched lib s years pubKey _).2.1, X509_new]

/-! ### The builder claims -/

/-- C2: in each of `GenerateSelfSignCert`, `GenerateMiddleCACert` and
`GenerateCert`, if the library cannot build the extension at position `k` of
the builder's sequence, then the builder returns `NULL`, `X509_sign` is never
called, the extensions attempted are an initial segment of the sequence of
length at most `k + 1` (nothing after position `k` is attempted), and the
certificate allocated by `X509_new` is released with `X509_free`.  When
`GenerateCertBasic` succeeded and the extensions before `k` were built, the
attempts are exactly the first `k + 1` of the sequence. -/
theorem C2_extension_failure_aborts (b : Builder) (lib : Lib) (s : Subject) (years : Nat)
    (pubKey caPriKey : EVP_PKEY) (caCert : X509) (k : Nat)
    (hk : k < b.extensionSequence.length)
    (hfail : lib.X509V3_EXT_conf_nid_ok k = false) :
    (b.run lib s years pubKey caPriKey caCert).ret = none ∧
    (∀ key md, Op.X509_sign key md ∉ (b.run lib s years pubKey caPriKey caCert).trace) ∧
    (extAttempts (b.run lib s years pubKey caPriKey caCert).trace).length ≤ k + 1 ∧
    extAttempts (b.run lib s years pubKey caPriKey caCert).trace =
      b.extensionSequence.take
        (extAttempts (b.run lib s years pubKey caPriKey caCert).trace).length ∧
    (lib.X509_new_ok = true →
      Op.X509_free ∈ (b.run lib s years pubKey caPriKey caCert).trace) ∧
    ((GenerateCertBasic lib s years pubKey).ret ≠ none →
      (∀ j, j < k → lib.X509V3_EXT_conf_nid_ok j = true) →
      extAttempts (b.run lib s years pubKey caPriKey caCert).trace =
        b.extensionSequence.take (k + 1)) := by
  cases b
  · exact GenerateSelfSignCert_abort lib s years pubKey k hk hfail
  · exact GenerateMiddleCACert_abort lib s years pubKey caPriKey caCert k hk hfail
  · exact GenerateCert_abort lib s years pubKey caPriKey caCert k hk hfail

/-- Witness of C2: the extension at position 2 (authority key identifier) of
`GenerateSelfSignCert` cannot be built; the builder returns `NULL` after
attempting the first three extensions. -/
theorem C2_extension_failure_aborts_witness :
    libExt2Fails.X509V3_EXT_conf_nid_ok 2 = false ∧
    (GenerateSelfSignCert libExt2Fails subjectCN 1 keyA).ret = none ∧
    extAttempts (GenerateSelfSignCert libExt2Fails subjectCN 1 keyA).trace =
      caExtensions.take 3 ∧
    Op.X509_free ∈ (GenerateSelfSignCert libExt2Fails subjectCN 1 keyA).trace :=
  ⟨by decide,
   (C2_extension_failure_aborts Builder.GenerateSelfSignCert libExt2Fails subjectCN 1 keyA keyCA
      certCA 2 (by decide) (by decide)).1,
   (C2_extension_failure_aborts Builder.GenerateSelfSignCert libExt2Fails subjectCN 1 keyA keyCA
      certCA 2 (by decide) (by decide)).2.2.2.2.2 (by decide) (by decide),
   (C2_extension_failure_aborts Builder.GenerateSelfSignCert libExt2Fails subjectCN 1 keyA keyCA
      certCA 2 (by decide) (by decide)).2.2.2.2.1 (by decide)⟩

/-- C5: when every library call succeeds, `GenerateSelfSignCert` and
`GenerateMiddleCACert` perform, after `GenerateCertBasic`, the same sequence of
library operations: set the issuer name, build and add the five extensions
extended-key-usage (clientAuth, serverAuth), subject-key-identifier (hash),
authority-key-identifier (keyid:always), key-usage (digitalSignature,
keyEncipherment, keyCertSign, cRLSign), basic-constraints (CA:true) in this
order, then sign with SM3.  They differ only in that `GenerateMiddleCACert`
takes the issuer name from `caCert`, uses `caCert` as extension issuer context
and signs with `caPriKey`, where `GenerateSelfSignCert` uses the certificate
itself and its own key.  The returned certificates carry exactly these five
extensions. -/
theorem C5_ca_paths_add_five_extensions_then_sign (lib : Lib) (s : Subject)
    (years : Nat) (pubKey caPriKey : EVP_PKEY) (caCert : X509) (h : lib.AllSucceed) :
    (GenerateSelfSignCert lib s years pubKey).trace =
      (GenerateCertBasic lib s years pubKey).trace ++
        caIssuanceOps CertRef.x509 CertRef.x509 pubKey ∧
    (GenerateMiddleCACert lib s years pubKey caPriKey caCert).trace =
      (GenerateCertBasic lib s years pubKey).trace ++
        caIssuanceOps CertRef.caCert CertRef.caCert caPriKey ∧
    ∃ x0, (GenerateCertBasic lib s years pubKey).ret = some x0 ∧
      (GenerateSelfSignCert lib s years pubKey).ret =
        some { x0 with issuer := x0.subject, extensions := caExtensions,
                       signature := some (pubKey, EVP_MD.sm3) } ∧
      (GenerateMiddleCACert lib s years pubKey caPriKey caCert).ret =
        some { x0 with issuer := caCert.subject, extensions := caExtensions,
                       signature := some (caPriKey, EVP_MD.sm3) } := by
  obtain ⟨x0, hb, hx, -⟩ := GenerateCertBasic_succeeds lib s years pubKey h
  obtain ⟨-, -, -, -, -, -, -, -, -, -, hi, he, ha, hs⟩ := h
  have hs' : lib.X509_sign_ret ≠ 0 := by omega
  have e0 := he 0 (by decide)
  have e1 := he 1 (by decide)
  have e2 := he 2 (by decide)
  have e3 := he 3 (by decide)
  have e4 := he 4 (by decide)
  have a0 := ha 0 (by decide)
  have a1 := ha 1 (by decide)
  have a2 := ha 2 (by decide)
  have a3 := ha 3 (by decide)
  have a4 := ha 4 (by decide)
  refine ⟨?_, ?_, x0, hb, ?_, ?_⟩
  · unfold GenerateSelfSignCert
    simp only [hb]
    simp [set_extension, Builder_END, caIssuanceOps, extensionOps, e0, e1, e2, e3, e4]
  · unfold GenerateMiddleCACert
    simp only [hb]
    simp [set_extension, Builder_END, caIssuanceOps, extensionOps, e0, e1, e2, e3, e4]
  · unfold GenerateSelfSignCert
    simp only [hb]
    simp [set_extension, Builder_END, X509_sign, X509_set_issuer_name, caExtensions,
      e0, e1, e2, e3, e4, a0, a1, a2, a3, a4, hi, hs', hx]
  · unfold GenerateMiddleCACert
    simp only [hb]
    simp [set_extension, Builder_END, X509_sign, X509_set_issuer_name, caExtensions,
      e0, e1, e2, e3, e4, a0, a1, a2, a3, a4, hi, hs', hx]

/-- Witness of C5 on the all-success run `libOk`. -/
theorem C5_ca_paths_add_five_extensions_then_sign_witness :
    libOk.AllSucceed ∧
    (GenerateSelfSignCert libOk subjectCN 1 keyA).trace =
      (GenerateCertBasic libOk subjectCN 1 keyA).trace ++
        caIssuanceOps CertRef.x509 CertRef.x509 keyA ∧
    (GenerateMiddleCACert libOk subjectCN 1 keyA keyCA certCA).trace =
      (GenerateCertBasic libOk subjectCN 1 keyA).trace ++
        caIssuanceOps CertRef.caCert CertRef.caCert keyCA :=
  ⟨by decide,
   (C5_ca_paths_add_five_extensions_then_sign libOk subjectCN 1 keyA keyCA certCA
      (by decide)).1,
   (C5_ca_paths_add_five_extensions_then_sign libOk subjectCN 1 keyA keyCA certCA
      (by decide)).2.1⟩

/-- C6: when every library call succeeds, the certificate returned by
`GenerateCert` has the subject name of `caCert` as issuer name, carries exactly
the extensions authority-key-identifier (keyid:always), key-usage
(digitalSignature), basic-constraints (CA:false), in particular no
extended-key-usage, no subject-key-identifier and no CA:true, and is signed
with `caPriKey` using SM3; the signature is made after the three extensions
are added. -/
theorem C6_leaf_certificate_contents (lib : Lib) (s : Subject) (years : Nat)
    (pubKey caPriKey : EVP_PKEY) (caCert : X509) (h : lib.AllSucceed) :
    ∃ c, (GenerateCert lib s years pubKey caPriKey caCert).ret = some c ∧
      c.issuer = caCert.subject ∧
      c.extensions =
        [{ nid := Nid.authority_key_identifier, value := "keyid:always" },
         { nid := Nid.key_usage, value := "digitalSignature" },
         { nid := Nid.basic_constraints, value := "CA:false" }] ∧
      (∀ e, e ∈ c.extensions → e.nid ≠ Nid.ext_key_usage ∧
        e.nid ≠ Nid.subject_key_identifier ∧ e.value ≠ "CA:true") ∧
      c.signature = some (caPriKey, EVP_MD.sm3) ∧
      (GenerateCert lib s years pubKey caPriKey caCert).trace =
        (GenerateCertBasic lib s years pubKey).trace ++
          [Op.X509_get_subject_name CertRef.caCert, Op.X509_set_issuer_name CertRef.caCert] ++
          extensionOps CertRef.caCert
            { nid := Nid.authority_key_identifier, value := "keyid:always" } ++
          extensionOps CertRef.caCert { nid := Nid.key_usage, value := "digitalSignature" } ++
          extensionOps CertRef.caCert { nid := Nid.basic_constraints, value := "CA:false" } ++
          [Op.X509_sign caPriKey EVP_MD.sm3] := by
  obtain ⟨x0, hb, hx, -⟩ := GenerateCertBasic_succeeds lib s years pubKey h
  obtain ⟨-, -, -, -, -, -, -, -, -, -, hi, he, ha, hs⟩ := h
  have hs' : lib.X509_sign_ret ≠ 0 := by omega
  have e0 := he 0 (by decide)
  have e1 := he 1 (by decide)
  have e2 := he 2 (by decide)
  have a0 := ha 0 (by decide)
  have a1 := ha 1 (by decide)
  have a2 := ha 2 (by decide)
  unfold GenerateCert
  simp only [hb]
  simp [set_extension, Builder_END, X509_sign, X509_set_issuer_name, extensionOps,
    e0, e1, e2, a0, a1, a2, hi, hs', hx]

/-- Witness of C6 on the all-success run `libOk`. -/
theorem C6_leaf_certificate_contents_witness :
    libOk.AllSucceed ∧
    ∃ c, (GenerateCert libOk subjectCN 1 keyA keyCA certCA).ret = some c ∧
      c.issuer = certCA.subject ∧ c.signature = some (keyCA, EVP_MD.sm3) :=
  ⟨by decide,
   (C6_leaf_certificate_contents libOk subjectCN 1 keyA keyCA certCA (by decide)).imp
     (fun _ hc => ⟨hc.1, hc.2.1, hc.2.2.2.2.1⟩)⟩

end GmCert
